import Mathlib

/-
  Shallow embedding of the marketplace-publishing core of the
  AutoDropShip repository (src/main.py, src/main-app.py).

  Modelling conventions:
  - Python floats are modelled as exact rationals; Python round(x, 2) is
    modelled as round-half-to-even on rationals in units of 1/100.
  - The operator session dict is a record of Option fields; a session key
    that is absent or holds Python None is modelled as none.
  - HTTP responses from the provider APIs are inputs to the modelled
    functions: a status code plus the JSON fields the code reads
    (dict[key] access that can raise KeyError is modelled by Option).
  - Logging (print calls) has no effect on state and is not modelled.
  - Catalog persistence (load_catalog / save_catalog) is modelled by
    passing the catalog list in and returning the updated list.
-/

namespace AutoDropShip

/-- Floor of a rational as an integer. -/
def zfloor (q : ℚ) : ℤ := ⌊q⌋

/-- Python round-half-to-even of a rational to the nearest integer. -/
def rne (x : ℚ) : ℤ :=
  if x - (zfloor x : ℚ) = 1/2 then
    (if zfloor x % 2 = 0 then zfloor x else zfloor x + 1)
  else zfloor (x + 1/2)

/-- Python round(x, 2) modelled on exact rationals. -/
def round2 (x : ℚ) : ℚ := ((rne (x * 100) : ℚ)) / 100

/-- Half-to-even rounding fixes the integers. -/
theorem rne_intCast (n : ℤ) : rne (n : ℚ) = n := by
  unfold rne zfloor
  rw [Int.floor_intCast]
  rw [if_neg (by norm_num)]
  rw [Int.floor_int_add]
  have h0 : ⌊(1/2 : ℚ)⌋ = 0 := by
    rw [Int.floor_eq_iff]
    norm_num
  rw [h0, add_zero]

/-- Rounding to two decimal places fixes the integers. -/
theorem round2_intCast (n : ℤ) : round2 (n : ℚ) = (n : ℚ) := by
  unfold round2
  have h : ((n : ℚ) * 100) = ((n * 100 : ℤ) : ℚ) := by push_cast; ring
  rw [h, rne_intCast]
  push_cast
  field_simp

/-- calculate_profit_margin from src/main.py lines 91-94: guards
price <= 0 with an early return of 0.0. -/
def calculate_profit_margin (price cost : ℚ) : ℚ :=
  if price ≤ 0 then 0 else round2 (((price - cost) / price) * 100)

/-- calculate_profit_margin from src/main-app.py lines 70-71: divides by
price unguarded; none models the ZeroDivisionError raised at price = 0. -/
def calculate_profit_margin_app (price cost : ℚ) : Option ℚ :=
  if price = 0 then none else some (round2 (((price - cost) / price) * 100))

/-- Margin function written from the words of the spec (section 8): for
all price > 0 the margin is round((price-cost)/price*100, 2); for
price <= 0 the margin is 0.0. For comparison with the source function. -/
def margin_spec (price cost : ℚ) : ℚ :=
  if 0 < price then round2 (((price - cost) / price) * 100) else 0

/-- C3: for every price > 0, calculate_profit_margin price cost equals
round(((price - cost) / price) * 100, 2), and for every price <= 0 it
equals 0.0 (stated as extensional equality with the margin function
written from the words of the spec); in particular
calculate_profit_margin 20 12 = 40.0. -/
theorem C3_profit_margin (price cost : ℚ) :
    calculate_profit_margin price cost = margin_spec price cost ∧
    calculate_profit_margin 20 12 = 40 := by
  constructor
  · unfold calculate_profit_margin margin_spec
    split_ifs with h1 h2
    · linarith
    · rfl
    · rfl
    · linarith
  · unfold calculate_profit_margin
    rw [if_neg (by norm_num)]
    have h : ((20 : ℚ) - 12) / 20 * 100 = ((40 : ℤ) : ℚ) := by norm_num
    rw [h, round2_intCast]
    norm_num

/-- C10 counterexample: at price = -1, cost = 0 the main-app.py variant
is defined and returns 100.0 while the main.py variant returns 0.0, so
the two computations are not extensionally equal on all defined inputs. -/
theorem C10_counterexample :
    calculate_profit_margin_app (-1) 0 = some 100 ∧
    calculate_profit_margin (-1) 0 = 0 ∧
    calculate_profit_margin_app (-1) 0 ≠ some (calculate_profit_margin (-1) 0) := by
  have happ : calculate_profit_margin_app (-1) 0 = some 100 := by
    unfold calculate_profit_margin_app
    rw [if_neg (by norm_num)]
    have h : ((-1 : ℚ) - 0) / (-1) * 100 = ((100 : ℤ) : ℚ) := by norm_num
    rw [h, round2_intCast]
    norm_num
  have hmain : calculate_profit_margin (-1) 0 = 0 := by
    unfold calculate_profit_margin
    rw [if_pos (by norm_num)]
  refine ⟨happ, hmain, ?_⟩
  rw [happ, hmain]
  simp

/-- C10 amended: the two profit-margin computations agree for every
price > 0 (the main-app.py variant is undefined at price = 0 and
disagrees with the guarded main.py variant for price < 0). -/
theorem C10_amended_agreement (price cost : ℚ) (h : 0 < price) :
    calculate_profit_margin_app price cost =
      some (calculate_profit_margin price cost) := by
  unfold calculate_profit_margin_app calculate_profit_margin
  rw [if_neg (by linarith), if_neg (by linarith)]

/-- C10 amended witness: the two variants agree at price = 20, cost = 12. -/
theorem C10_amended_witness :
    calculate_profit_margin_app 20 12 = some (calculate_profit_margin 20 12) :=
  C10_amended_agreement 20 12 (by norm_num)

/-- One record of catalog.json, the Product model of src/main.py lines
67-78. A missing listing-id key and a key holding Python None are both
modelled as none. Timestamps are not read by the publish flow and are
omitted. -/
structure Item where
  title : String
  description : String
  price : ℚ
  cost : ℚ
  image_url : String
  predicted_profit_margin : ℚ
  published_ebay : Bool
  published_etsy : Bool
  ebay_listing_id : Option String
  etsy_listing_id : Option String
deriving DecidableEq

/-- The operator session dict: exactly the keys src/main.py reads and
writes. A key that is absent or holds Python None is modelled as none.
Timestamps are modelled as integers. -/
structure Session where
  ebay_access_token : Option String := none
  ebay_refresh_token : Option String := none
  ebay_token_expiry : Option ℤ := none
  etsy_access_token : Option String := none
  etsy_refresh_token : Option String := none
  etsy_token_expiry : Option ℤ := none
  etsy_shop_id : Option String := none
  etsy_shop_name : Option String := none
deriving DecidableEq

/-- Parsed JSON body plus status of a provider token-endpoint response.
Fields the code reads with dict[key] (KeyError when absent) or dict.get
are both Option; expires_in is an integer number of seconds. -/
structure TokenResponse where
  status : ℕ
  access_token : Option String
  refresh_token : Option String
  expires_in : Option ℤ
deriving DecidableEq

/-- Parsed JSON body plus status of the Etsy shop-lookup response. -/
structure ShopResponse where
  status : ℕ
  shop_id : Option String
  shop_name : Option String
deriving DecidableEq

/-- Python truthiness of a session value: None and the empty string are
falsy, used to model the code checks if not access_token, if not
refresh_token and if not shop_id. -/
def truthy : Option String → Bool
  | none => false
  | some s => !(s == "")

/-- Python str applied to an Optional value: str(None) is the string
None, modelling item etsy_listing_id = str(listing_id) in src/main.py
line 486. -/
def pyStr : Option String → String
  | none => "None"
  | some s => s

/-- Python str.startswith, modelled on the character lists so that it
evaluates by kernel reduction. -/
def strStartsWith (s p : String) : Bool := p.data.isPrefixOf s.data

/-- Python list indexing: nonnegative indices address from the front,
negative indices are offset by the length; none models IndexError. -/
def pyIndex (len : ℕ) (i : ℤ) : Option ℕ :=
  if 0 ≤ i then (if i < (len : ℤ) then some i.toNat else none)
  else (if 0 ≤ i + (len : ℤ) then some (i + (len : ℤ)).toNat else none)

/-- Outcome of a token-refresh helper, src/main.py lines 495-525 and
527-558. noToken models the early return RedirectResponse, whose value
the publish routes discard; refreshError models the HTTPException raised
when the token endpoint returns non-200 (re-raised as a 500 by the
enclosing except block); internalError models a KeyError on a missing
response field. -/
inductive RefreshResult
  | noToken
  | refreshError
  | internalError
  | ok
deriving DecidableEq

/-- refresh_ebay_token from src/main.py lines 495-525. The code sets
access_token, then token_expiry, then refresh_token only when the
response carries one; a KeyError after the first assignment leaves the
session partially updated, which the model reproduces. -/
def refresh_ebay_token (now : ℤ) (s : Session) (resp : TokenResponse) :
    Session × RefreshResult :=
  if truthy s.ebay_refresh_token = false then (s, .noToken)
  else if resp.status ≠ 200 then (s, .refreshError)
  else
    match resp.access_token with
    | none => (s, .internalError)
    | some tok =>
      match resp.expires_in with
      | none => ({ s with ebay_access_token := some tok }, .internalError)
      | some ei =>
        match resp.refresh_token with
        | some rt =>
          ({ s with ebay_access_token := some tok,
                    ebay_token_expiry := some (now + ei),
                    ebay_refresh_token := some rt }, .ok)
        | none =>
          ({ s with ebay_access_token := some tok,
                    ebay_token_expiry := some (now + ei) }, .ok)

/-- refresh_etsy_token from src/main.py lines 527-558, identical shape
to the eBay variant on the etsy session keys. -/
def refresh_etsy_token (now : ℤ) (s : Session) (resp : TokenResponse) :
    Session × RefreshResult :=
  if truthy s.etsy_refresh_token = false then (s, .noToken)
  else if resp.status ≠ 200 then (s, .refreshError)
  else
    match resp.access_token with
    | none => (s, .internalError)
    | some tok =>
      match resp.expires_in with
      | none => ({ s with etsy_access_token := some tok }, .internalError)
      | some ei =>
        match resp.refresh_token with
        | some rt =>
          ({ s with etsy_access_token := some tok,
                    etsy_token_expiry := some (now + ei),
                    etsy_refresh_token := some rt }, .ok)
        | none =>
          ({ s with etsy_access_token := some tok,
                    etsy_token_expiry := some (now + ei) }, .ok)

/-- Outcome of an OAuth callback route. ok models the final
RedirectResponse to /catalog_ui; tokenExchangeError models the
HTTPException for a non-200 token response; internalError models a
KeyError on a missing response field. Both exceptions surface as a 500
via the enclosing except block. -/
inductive AuthResult
  | ok
  | tokenExchangeError
  | internalError
deriving DecidableEq

/-- callback_ebay from src/main.py lines 285-313: stores access token,
refresh token (dict.get, possibly None) and expiry computed as
now + expires_in. -/
def callback_ebay (now : ℤ) (s : Session) (resp : TokenResponse) :
    Session × AuthResult :=
  if resp.status ≠ 200 then (s, .tokenExchangeError)
  else
    match resp.access_token with
    | none => (s, .internalError)
    | some tok =>
      let s1 := { s with ebay_access_token := some tok,
                         ebay_refresh_token := resp.refresh_token }
      match resp.expires_in with
      | none => (s1, .internalError)
      | some ei => ({ s1 with ebay_token_expiry := some (now + ei) }, .ok)

/-- callback_etsy from src/main.py lines 227-268: stores the token
fields, then performs the follow-up shop lookup; a non-200 shop
response is only logged and the shop keys keep their previous values. -/
def callback_etsy (now : ℤ) (s : Session) (resp : TokenResponse)
    (shop : ShopResponse) : Session × AuthResult :=
  if resp.status ≠ 200 then (s, .tokenExchangeError)
  else
    match resp.access_token with
    | none => (s, .internalError)
    | some tok =>
      let s1 := { s with etsy_access_token := some tok,
                         etsy_refresh_token := resp.refresh_token }
      match resp.expires_in with
      | none => (s1, .internalError)
      | some ei =>
        let s2 := { s1 with etsy_token_expiry := some (now + ei) }
        if shop.status = 200 then
          match shop.shop_id with
          | none => (s2, .internalError)
          | some sid =>
            let s3 := { s2 with etsy_shop_id := some sid }
            match shop.shop_name with
            | none => (s3, .internalError)
            | some sname => ({ s3 with etsy_shop_name := some sname }, .ok)
        else (s2, .ok)

/-- Outcome of a publish route. redirectAuth models the redirect to
/auth/provider when no access token is in the session; itemNotFound the
404; indexError an unhandled IndexError from catalog[item_id] (raised
outside the try block); shopNotConnected the Etsy 400; refreshError and
refreshInternalError the exceptions propagating out of the refresh
helper; the upstream constructors the 500s raised for non-2xx provider
responses; fileError an exception opening the local image file. -/
inductive PubResult
  | redirectAuth
  | itemNotFound
  | indexError
  | shopNotConnected
  | refreshError
  | refreshInternalError
  | upstreamInventory
  | upstreamOffer
  | upstreamPublish
  | upstreamListing
  | fileError
  | ok
deriving DecidableEq

/-- The provider responses consumed by one eBay publish attempt: the
refresh-endpoint response (used only when the stored token is expired),
the status codes of the three listing calls, and the listingId field of
the final publish response, read with dict.get so possibly None. The
offerId of step 2 is interpolated into the step-3 URL only and does not
affect the modelled state. -/
structure EbayNet where
  refresh : TokenResponse
  invStatus : ℕ
  offerStatus : ℕ
  publishStatus : ℕ
  publishListingId : Option String
deriving DecidableEq

/-- The provider responses consumed by one Etsy publish attempt:
refresh-endpoint response, listing-creation status and its listing_id
field (dict.get, possibly None), whether opening the local image file
succeeds, and the image-upload status. -/
structure EtsyNet where
  refresh : TokenResponse
  listingStatus : ℕ
  listingId : Option String
  fileOk : Bool
  imageStatus : ℕ
deriving DecidableEq

/-- The three provider calls of publish_ebay, src/main.py lines 333-409:
inventory PUT (2xx means 200, 201 or 204), offer POST (200 or 201),
offer publish POST (200 or 201); on success the item at idx is marked
published with the listingId taken from the final response. -/
def publish_ebay_calls (cat : List Item) (idx : ℕ) (item : Item)
    (s : Session) (net : EbayNet) : List Item × Session × PubResult :=
  if ¬ (net.invStatus = 200 ∨ net.invStatus = 201 ∨ net.invStatus = 204) then
    (cat, s, .upstreamInventory)
  else if ¬ (net.offerStatus = 200 ∨ net.offerStatus = 201) then
    (cat, s, .upstreamOffer)
  else if ¬ (net.publishStatus = 200 ∨ net.publishStatus = 201) then
    (cat, s, .upstreamPublish)
  else
    (cat.set idx { item with published_ebay := true,
                             ebay_listing_id := net.publishListingId },
      s, .ok)

/-- The provider calls of publish_etsy, src/main.py lines 436-487:
listing POST (200 or 201); when the image url is a local upload, the
file is opened (failure aborts before any catalog mutation) and the
upload POST is issued, whose status is only logged, never branched on;
the item is then marked published with str(listing_id). -/
def publish_etsy_calls (cat : List Item) (idx : ℕ) (item : Item)
    (s : Session) (net : EtsyNet) : List Item × Session × PubResult :=
  if ¬ (net.listingStatus = 200 ∨ net.listingStatus = 201) then
    (cat, s, .upstreamListing)
  else if strStartsWith item.image_url "/static/uploads/" ∧ net.fileOk = false then
    (cat, s, .fileError)
  else
    (cat.set idx { item with published_etsy := true,
                             etsy_listing_id := some (pyStr net.listingId) },
      s, .ok)

/-- publish_ebay from src/main.py lines 316-414: access-token gate, 404
gate (item_id greater than or equal to the catalog length), Python
indexing of the catalog, expiry check with session.get default 0 calling
refresh_ebay_token (whose noToken RedirectResponse the caller discards,
continuing with the stale token), then the three provider calls. -/
def publish_ebay (now : ℤ) (cat : List Item) (s : Session) (item_id : ℤ)
    (net : EbayNet) : List Item × Session × PubResult :=
  if truthy s.ebay_access_token = false then (cat, s, .redirectAuth)
  else if (cat.length : ℤ) ≤ item_id then (cat, s, .itemNotFound)
  else
    match pyIndex cat.length item_id with
    | none => (cat, s, .indexError)
    | some idx =>
      match cat.get? idx with
      | none => (cat, s, .indexError)
      | some item =>
        if (s.ebay_token_expiry).getD 0 < now then
          match refresh_ebay_token now s net.refresh with
          | (s1, RefreshResult.refreshError) => (cat, s1, .refreshError)
          | (s1, RefreshResult.internalError) => (cat, s1, .refreshInternalError)
          | (s1, _) => publish_ebay_calls cat idx item s1 net
        else publish_ebay_calls cat idx item s net

/-- publish_etsy from src/main.py lines 416-492: access-token gate, 404
gate, Python indexing, shop-id gate (400 when falsy), expiry check with
refresh_etsy_token (same discarded-redirect behaviour), then the
provider calls. -/
def publish_etsy (now : ℤ) (cat : List Item) (s : Session) (item_id : ℤ)
    (net : EtsyNet) : List Item × Session × PubResult :=
  if truthy s.etsy_access_token = false then (cat, s, .redirectAuth)
  else if (cat.length : ℤ) ≤ item_id then (cat, s, .itemNotFound)
  else
    match pyIndex cat.length item_id with
    | none => (cat, s, .indexError)
    | some idx =>
      match cat.get? idx with
      | none => (cat, s, .indexError)
      | some item =>
        if truthy s.etsy_shop_id = false then (cat, s, .shopNotConnected)
        else if (s.etsy_token_expiry).getD 0 < now then
          match refresh_etsy_token now s net.refresh with
          | (s1, RefreshResult.refreshError) => (cat, s1, .refreshError)
          | (s1, RefreshResult.internalError) => (cat, s1, .refreshInternalError)
          | (s1, _) => publish_etsy_calls cat idx item s1 net
        else publish_etsy_calls cat idx item s net

/-- Spec invariant for the eBay publish state of one item: published is
true exactly when a listing id is recorded. -/
def ebayInv (it : Item) : Prop :=
  it.published_ebay = true ↔ it.ebay_listing_id ≠ none

/-- Spec invariant for the Etsy publish state of one item. -/
def etsyInv (it : Item) : Prop :=
  it.published_etsy = true ↔ it.etsy_listing_id ≠ none

/-- Spec invariant for both providers on one item. -/
def itemInv (it : Item) : Prop := ebayInv it ∧ etsyInv it

instance (it : Item) : Decidable (ebayInv it) := by
  unfold ebayInv
  infer_instance

instance (it : Item) : Decidable (etsyInv it) := by
  unfold etsyInv
  infer_instance

instance (it : Item) : Decidable (itemInv it) := by
  unfold itemInv
  infer_instance

/-- Every run of the three eBay provider calls either fails and leaves
the catalog untouched, or succeeds with all three statuses 2xx, marking
the item at idx published with the listingId of the final response. -/
theorem publish_ebay_calls_shape (cat : List Item) (idx : ℕ) (item : Item)
    (s : Session) (net : EbayNet) :
    ((publish_ebay_calls cat idx item s net).1 = cat ∧
      (publish_ebay_calls cat idx item s net).2.2 ≠ PubResult.ok) ∨
    ((net.invStatus = 200 ∨ net.invStatus = 201 ∨ net.invStatus = 204) ∧
      (net.offerStatus = 200 ∨ net.offerStatus = 201) ∧
      (net.publishStatus = 200 ∨ net.publishStatus = 201) ∧
      (publish_ebay_calls cat idx item s net).2.2 = PubResult.ok ∧
      (publish_ebay_calls cat idx item s net).1 =
        cat.set idx { item with published_ebay := true,
                                ebay_listing_id := net.publishListingId }) := by
  unfold publish_ebay_calls
  split_ifs with h1 h2 h3
  all_goals
    first
      | exact Or.inl ⟨rfl, by simp⟩
      | exact Or.inr ⟨by tauto, by tauto, by tauto, rfl, rfl⟩

/-- Every run of publish_ebay either fails and leaves the catalog
untouched, or succeeds with all three provider statuses 2xx, marking one
existing item published with the listingId of the final response. -/
theorem publish_ebay_shape (now : ℤ) (cat : List Item) (s : Session)
    (i : ℤ) (net : EbayNet) :
    ((publish_ebay now cat s i net).1 = cat ∧
      (publish_ebay now cat s i net).2.2 ≠ PubResult.ok) ∨
    ((net.invStatus = 200 ∨ net.invStatus = 201 ∨ net.invStatus = 204) ∧
      (net.offerStatus = 200 ∨ net.offerStatus = 201) ∧
      (net.publishStatus = 200 ∨ net.publishStatus = 201) ∧
      (publish_ebay now cat s i net).2.2 = PubResult.ok ∧
      ∃ idx item, cat.get? idx = some item ∧
        (publish_ebay now cat s i net).1 =
          cat.set idx { item with published_ebay := true,
                                  ebay_listing_id := net.publishListingId }) := by
  unfold publish_ebay
  repeat' split
  all_goals
    first
      | exact Or.inl ⟨rfl, by simp⟩
      | exact (publish_ebay_calls_shape _ _ _ _ _).elim
          (fun h => Or.inl h)
          (fun h => Or.inr ⟨h.1, h.2.1, h.2.2.1, h.2.2.2.1, _, _, by assumption,
            h.2.2.2.2⟩)

/-- Every run of the Etsy provider calls either fails and leaves the
catalog untouched, or succeeds with the listing-creation status 2xx,
marking the item at idx published with str of the listing_id field; the
image-upload status plays no part in the outcome. -/
theorem publish_etsy_calls_shape (cat : List Item) (idx : ℕ) (item : Item)
    (s : Session) (net : EtsyNet) :
    ((publish_etsy_calls cat idx item s net).1 = cat ∧
      (publish_etsy_calls cat idx item s net).2.2 ≠ PubResult.ok) ∨
    ((net.listingStatus = 200 ∨ net.listingStatus = 201) ∧
      (publish_etsy_calls cat idx item s net).2.2 = PubResult.ok ∧
      (publish_etsy_calls cat idx item s net).1 =
        cat.set idx { item with published_etsy := true,
                                etsy_listing_id := some (pyStr net.listingId) }) := by
  unfold publish_etsy_calls
  split_ifs with h1 h2
  all_goals
    first
      | exact Or.inl ⟨rfl, by simp⟩
      | exact Or.inr ⟨by tauto, rfl, rfl⟩

/-- Every run of publish_etsy either fails and leaves the catalog
untouched, or succeeds with the listing-creation status 2xx, marking one
existing item published with str of the listing_id field. -/
theorem publish_etsy_shape (now : ℤ) (cat : List Item) (s : Session)
    (i : ℤ) (net : EtsyNet) :
    ((publish_etsy now cat s i net).1 = cat ∧
      (publish_etsy now cat s i net).2.2 ≠ PubResult.ok) ∨
    ((net.listingStatus = 200 ∨ net.listingStatus = 201) ∧
      (publish_etsy now cat s i net).2.2 = PubResult.ok ∧
      ∃ idx item, cat.get? idx = some item ∧
        (publish_etsy now cat s i net).1 =
          cat.set idx { item with published_etsy := true,
                                  etsy_listing_id := some (pyStr net.listingId) }) := by
  unfold publish_etsy
  repeat' split
  all_goals
    first
      | exact Or.inl ⟨rfl, by simp⟩
      | exact (publish_etsy_calls_shape _ _ _ _ _).elim
          (fun h => Or.inl h)
          (fun h => Or.inr ⟨h.1, h.2.1, _, _, by assumption, h.2.2⟩)

/-- C1 amended: provided every catalog item satisfies the per-provider
invariant beforehand and the final eBay publish response carries a
listingId, every item still satisfies the invariant after any call to
publish_ebay or publish_etsy, success or failure; the proviso is needed
because a successful eBay publish stores publish_data.get with a
possibly missing listingId, while the Etsy side stores str(listing_id),
which is never None. -/
theorem C1_invariant_amended (now : ℤ) (cat : List Item) (sE sT : Session)
    (i : ℤ) (enet : EbayNet) (tnet : EtsyNet)
    (hcat : ∀ it ∈ cat, itemInv it)
    (hlid : enet.publishListingId ≠ none) :
    (∀ it ∈ (publish_ebay now cat sE i enet).1, itemInv it) ∧
    (∀ it ∈ (publish_etsy now cat sT i tnet).1, itemInv it) := by
  constructor
  · rcases publish_ebay_shape now cat sE i enet with h | h
    · rw [h.1]
      exact hcat
    · obtain ⟨-, -, -, -, idx, item, hget, hset⟩ := h
      rw [hset]
      intro it hit
      rcases List.mem_or_eq_of_mem_set hit with hmem | heq
      · exact hcat it hmem
      · subst heq
        have hold := hcat item (List.get?_mem hget)
        refine ⟨?_, hold.2⟩
        unfold ebayInv
        simpa using hlid
  · rcases publish_etsy_shape now cat sT i tnet with h | h
    · rw [h.1]
      exact hcat
    · obtain ⟨-, -, idx, item, hget, hset⟩ := h
      rw [hset]
      intro it hit
      rcases List.mem_or_eq_of_mem_set hit with hmem | heq
      · exact hcat it hmem
      · subst heq
        have hold := hcat item (List.get?_mem hget)
        refine ⟨hold.1, ?_⟩
        unfold etsyInv
        simp

/-- A freshly added catalog item, as add_product creates it: unpublished
on both providers, no listing-id keys. -/
def item0 : Item :=
  { title := "Widget", description := "A widget", price := 20, cost := 12,
    image_url := "/static/uploads/w.png", predicted_profit_margin := 40,
    published_ebay := false, published_etsy := false,
    ebay_listing_id := none, etsy_listing_id := none }

/-- Session with a valid, unexpired eBay token. -/
def sEbayOk : Session :=
  { ebay_access_token := some "tok", ebay_token_expiry := some 1000 }

/-- Session with a valid, unexpired Etsy token and a connected shop. -/
def sEtsyOk : Session :=
  { etsy_access_token := some "tok", etsy_token_expiry := some 1000,
    etsy_shop_id := some "SHOP1" }

/-- Token response for a refresh endpoint that is never reached. -/
def respUnused : TokenResponse :=
  { status := 500, access_token := none, refresh_token := none,
    expires_in := none }

/-- eBay responses: all three calls succeed and the publish response
carries a listingId. -/
def enetOk : EbayNet :=
  { refresh := respUnused, invStatus := 200, offerStatus := 200,
    publishStatus := 200, publishListingId := some "L1" }

/-- eBay responses: all three calls succeed but the 2xx publish response
body carries no listingId field. -/
def enetNoListingId : EbayNet :=
  { refresh := respUnused, invStatus := 204, offerStatus := 201,
    publishStatus := 200, publishListingId := none }

/-- eBay responses: inventory creation (step 1) fails. -/
def enetInvFail : EbayNet :=
  { refresh := respUnused, invStatus := 500, offerStatus := 200,
    publishStatus := 200, publishListingId := some "L1" }

/-- eBay responses: inventory succeeds, offer creation fails. -/
def enetOfferFail : EbayNet :=
  { refresh := respUnused, invStatus := 200, offerStatus := 500,
    publishStatus := 200, publishListingId := some "L1" }

/-- eBay responses: steps 1 and 2 succeed, the final offer-publish call
(step 3) fails. -/
def enetPubFail : EbayNet :=
  { refresh := respUnused, invStatus := 200, offerStatus := 200,
    publishStatus := 500, publishListingId := some "L1" }

/-- Etsy responses: listing creation and image upload both succeed. -/
def tnetOk : EtsyNet :=
  { refresh := respUnused, listingStatus := 201, listingId := some "E1",
    fileOk := true, imageStatus := 201 }

/-- Etsy responses: listing creation succeeds, image upload fails. -/
def tnetImageFail : EtsyNet :=
  { refresh := respUnused, listingStatus := 201, listingId := some "E1",
    fileOk := true, imageStatus := 500 }

/-- Etsy responses: listing creation fails. -/
def tnetListFail : EtsyNet :=
  { refresh := respUnused, listingStatus := 500, listingId := none,
    fileOk := true, imageStatus := 200 }

/-- C1 counterexample: starting from a catalog whose single item
satisfies the invariant, a successful eBay publish whose 2xx final
response lacks a listingId leaves the item with published_ebay true and
ebay_listing_id None, violating published iff listing_id present. -/
theorem C1_counterexample :
    itemInv item0 ∧
    (publish_ebay 0 [item0] sEbayOk 0 enetNoListingId).2.2 = PubResult.ok ∧
    (((publish_ebay 0 [item0] sEbayOk 0 enetNoListingId).1.get? 0).getD
        item0).published_ebay = true ∧
    (((publish_ebay 0 [item0] sEbayOk 0 enetNoListingId).1.get? 0).getD
        item0).ebay_listing_id = none ∧
    ¬ itemInv (((publish_ebay 0 [item0] sEbayOk 0 enetNoListingId).1.get? 0).getD
        item0) := by
  decide

/-- C1 amended witness: with every response 2xx and a listingId present
in the final eBay response, the invariant is preserved by both publish
calls on a concrete catalog. -/
theorem C1_invariant_amended_witness :
    (∀ it ∈ (publish_ebay 0 [item0] sEbayOk 0 enetOk).1, itemInv it) ∧
    (∀ it ∈ (publish_etsy 0 [item0] sEtsyOk 0 tnetOk).1, itemInv it) :=
  C1_invariant_amended 0 [item0] sEbayOk sEtsyOk 0 enetOk tnetOk
    (by decide) (by decide)

/-- With an expired eBay token, a present refresh token and a non-200
refresh response, publish_ebay never succeeds and leaves the catalog
unchanged: the HTTPException raised inside refresh_ebay_token propagates
out of the publish route before any catalog mutation. -/
theorem publish_ebay_refresh_fail (now : ℤ) (cat : List Item) (s : Session)
    (i : ℤ) (net : EbayNet)
    (hexp : (s.ebay_token_expiry).getD 0 < now)
    (hrt : truthy s.ebay_refresh_token = true)
    (hst : net.refresh.status ≠ 200) :
    (publish_ebay now cat s i net).1 = cat ∧
    (publish_ebay now cat s i net).2.2 ≠ PubResult.ok := by
  have hre : refresh_ebay_token now s net.refresh =
      (s, RefreshResult.refreshError) := by
    unfold refresh_ebay_token
    rw [if_neg (by simp [hrt]), if_pos hst]
  unfold publish_ebay
  repeat' split
  all_goals simp_all

/-- With an expired Etsy token, a present refresh token and a non-200
refresh response, publish_etsy never succeeds and leaves the catalog
unchanged. -/
theorem publish_etsy_refresh_fail (now : ℤ) (cat : List Item) (s : Session)
    (i : ℤ) (net : EtsyNet)
    (hexp : (s.etsy_token_expiry).getD 0 < now)
    (hrt : truthy s.etsy_refresh_token = true)
    (hst : net.refresh.status ≠ 200) :
    (publish_etsy now cat s i net).1 = cat ∧
    (publish_etsy now cat s i net).2.2 ≠ PubResult.ok := by
  have hre : refresh_etsy_token now s net.refresh =
      (s, RefreshResult.refreshError) := by
    unfold refresh_etsy_token
    rw [if_neg (by simp [hrt]), if_pos hst]
  unfold publish_etsy
  repeat' split
  all_goals simp_all

/-- C2 amended: every provider-call failure other than the Etsy
image-upload aborts the publish with a non-ok outcome and leaves the
stored catalog exactly as it was: any non-ok outcome of either publish
leaves the catalog unchanged, and a non-2xx eBay inventory call
(step 1), offer creation (step 2, even though step 1 succeeded), final
offer publish (step 3), Etsy listing creation, or token-refresh call
made because the stored token was expired each force a non-ok outcome
with no catalog mutation. -/
theorem C2_abort_amended (now : ℤ) (cat : List Item) (sE sT : Session) (i : ℤ)
    (enet : EbayNet) (tnet : EtsyNet) :
    ((publish_ebay now cat sE i enet).2.2 ≠ PubResult.ok →
      (publish_ebay now cat sE i enet).1 = cat) ∧
    (¬ (enet.invStatus = 200 ∨ enet.invStatus = 201 ∨ enet.invStatus = 204) →
      (publish_ebay now cat sE i enet).1 = cat ∧
      (publish_ebay now cat sE i enet).2.2 ≠ PubResult.ok) ∧
    (¬ (enet.offerStatus = 200 ∨ enet.offerStatus = 201) →
      (publish_ebay now cat sE i enet).1 = cat ∧
      (publish_ebay now cat sE i enet).2.2 ≠ PubResult.ok) ∧
    (¬ (enet.publishStatus = 200 ∨ enet.publishStatus = 201) →
      (publish_ebay now cat sE i enet).1 = cat ∧
      (publish_ebay now cat sE i enet).2.2 ≠ PubResult.ok) ∧
    ((sE.ebay_token_expiry).getD 0 < now →
      truthy sE.ebay_refresh_token = true → enet.refresh.status ≠ 200 →
      (publish_ebay now cat sE i enet).1 = cat ∧
      (publish_ebay now cat sE i enet).2.2 ≠ PubResult.ok) ∧
    ((publish_etsy now cat sT i tnet).2.2 ≠ PubResult.ok →
      (publish_etsy now cat sT i tnet).1 = cat) ∧
    (¬ (tnet.listingStatus = 200 ∨ tnet.listingStatus = 201) →
      (publish_etsy now cat sT i tnet).1 = cat ∧
      (publish_etsy now cat sT i tnet).2.2 ≠ PubResult.ok) ∧
    ((sT.etsy_token_expiry).getD 0 < now →
      truthy sT.etsy_refresh_token = true → tnet.refresh.status ≠ 200 →
      (publish_etsy now cat sT i tnet).1 = cat ∧
      (publish_etsy now cat sT i tnet).2.2 ≠ PubResult.ok) := by
  refine ⟨?_, ?_, ?_, ?_, ?_, ?_, ?_, ?_⟩
  · intro hne
    rcases publish_ebay_shape now cat sE i enet with h | h
    · exact h.1
    · exact absurd h.2.2.2.1 hne
  · intro hinv
    rcases publish_ebay_shape now cat sE i enet with h | h
    · exact ⟨h.1, h.2⟩
    · exact absurd h.1 hinv
  · intro hoff
    rcases publish_ebay_shape now cat sE i enet with h | h
    · exact ⟨h.1, h.2⟩
    · exact absurd h.2.1 hoff
  · intro hpub
    rcases publish_ebay_shape now cat sE i enet with h | h
    · exact ⟨h.1, h.2⟩
    · exact absurd h.2.2.1 hpub
  · intro h1 h2 h3
    exact publish_ebay_refresh_fail now cat sE i enet h1 h2 h3
  · intro hne
    rcases publish_etsy_shape now cat sT i tnet with h | h
    · exact h.1
    · exact absurd h.2.1 hne
  · intro hlist
    rcases publish_etsy_shape now cat sT i tnet with h | h
    · exact ⟨h.1, h.2⟩
    · exact absurd h.1 hlist
  · intro h1 h2 h3
    exact publish_etsy_refresh_fail now cat sT i tnet h1 h2 h3

/-- C2 counterexample: during an Etsy publish the image-upload provider
call returns 500, yet the publish does not abort: the outcome is ok and
the catalog is mutated, with the item marked published. -/
theorem C2_counterexample :
    ¬ (tnetImageFail.imageStatus = 200 ∨ tnetImageFail.imageStatus = 201) ∧
    (publish_etsy 0 [item0] sEtsyOk 0 tnetImageFail).2.2 = PubResult.ok ∧
    (publish_etsy 0 [item0] sEtsyOk 0 tnetImageFail).1 ≠ [item0] ∧
    (((publish_etsy 0 [item0] sEtsyOk 0 tnetImageFail).1.get? 0).getD
        item0).published_etsy = true := by
  decide

/-- A Python index that resolves to a position is below the catalog
length, so the 404 gate did not fire. -/
theorem pyIndex_not_le (len : ℕ) (i : ℤ) (idx : ℕ)
    (h : pyIndex len i = some idx) : ¬ ((len : ℤ) ≤ i) := by
  unfold pyIndex at h
  split_ifs at h with h1 h2 h3
  all_goals omega

/-- C4: if the Etsy listing-creation call succeeds with a listing_id and
the subsequent image-upload call returns non-2xx, the failure has no
effect on the outcome: the item is still marked published_etsy with the
returned listing_id persisted, and the call ends ok. -/
theorem C4_etsy_image_best_effort (now : ℤ) (cat : List Item) (s : Session)
    (i : ℤ) (idx : ℕ) (item : Item) (lid : String) (net : EtsyNet)
    (htok : truthy s.etsy_access_token = true)
    (hidx : pyIndex cat.length i = some idx)
    (hget : cat.get? idx = some item)
    (hshop : truthy s.etsy_shop_id = true)
    (hfresh : ¬ ((s.etsy_token_expiry).getD 0 < now))
    (hlist : net.listingStatus = 200 ∨ net.listingStatus = 201)
    (hlid : net.listingId = some lid)
    (hurl : strStartsWith item.image_url "/static/uploads/" = true)
    (hfile : net.fileOk = true)
    (himg : ¬ (net.imageStatus = 200 ∨ net.imageStatus = 201)) :
    publish_etsy now cat s i net =
      (cat.set idx { item with published_etsy := true,
                               etsy_listing_id := some lid },
        s, PubResult.ok) := by
  have h404 := pyIndex_not_le cat.length i idx hidx
  unfold publish_etsy publish_etsy_calls
  rw [if_neg (by simp [htok]), if_neg h404]
  simp only [hidx, hget]
  rw [if_neg (show ¬ truthy s.etsy_shop_id = false by simp [hshop])]
  rw [if_neg hfresh]
  rcases hlist with h | h <;>
    simp [h, hurl, hfile, hlid, pyStr]

/-- C4 witness: on a concrete catalog with a local image, a 201 listing
response and a 500 image-upload response still publish the item with
listing id E1. -/
theorem C4_etsy_image_best_effort_witness :
    publish_etsy 0 [item0] sEtsyOk 0 tnetImageFail =
      ([{ item0 with published_etsy := true, etsy_listing_id := some "E1" }],
        sEtsyOk, PubResult.ok) :=
  C4_etsy_image_best_effort 0 [item0] sEtsyOk 0 0 item0 "E1" tnetImageFail
    (by decide) (by decide) (by decide) (by decide) (by decide) (by decide)
    (by decide) (by decide) (by decide) (by decide)

/-- Session holding an expired eBay token and no refresh token. -/
def sStaleEbay : Session :=
  { ebay_access_token := some "stale", ebay_token_expiry := some 10 }

/-- Session holding an expired Etsy token, no refresh token, and a
connected shop. -/
def sStaleEtsy : Session :=
  { etsy_access_token := some "stale", etsy_token_expiry := some 10,
    etsy_shop_id := some "SHOP1" }

/-- C5: with an expired token and no refresh token in the session, the
publish does not fail with a token-refresh error: the refresh helper
returns a RedirectResponse that the caller discards, and the publish
proceeds to the provider calls with the stale access token, here all the
way to ok, for both providers. -/
theorem C5_stale_token_publish_proceeds :
    truthy sStaleEbay.ebay_refresh_token = false ∧
    (sStaleEbay.ebay_token_expiry).getD 0 < 100 ∧
    (publish_ebay 100 [item0] sStaleEbay 0 enetOk).2.2 = PubResult.ok ∧
    (publish_ebay 100 [item0] sStaleEbay 0 enetOk).2.2 ≠
      PubResult.refreshError ∧
    truthy sStaleEtsy.etsy_refresh_token = false ∧
    (sStaleEtsy.etsy_token_expiry).getD 0 < 100 ∧
    (publish_etsy 100 [item0] sStaleEtsy 0 tnetOk).2.2 = PubResult.ok := by
  decide

/-- C6 amended: given the provider token is present, the publish fails
with itemNotFound exactly when item_id is at least the catalog length,
leaving the catalog unchanged; every smaller item_id passes the check,
including negative ones, which are not positions of existing items:
those within minus-length alias items from the end, and those below
minus-length end in an unhandled IndexError, not itemNotFound. -/
theorem C6_item_lookup_amended (now : ℤ) (cat : List Item) (sE sT : Session)
    (i : ℤ) (enet : EbayNet) (tnet : EtsyNet)
    (he : truthy sE.ebay_access_token = true)
    (ht : truthy sT.etsy_access_token = true) :
    ((publish_ebay now cat sE i enet).2.2 = PubResult.itemNotFound ↔
      (cat.length : ℤ) ≤ i) ∧
    ((cat.length : ℤ) ≤ i → (publish_ebay now cat sE i enet).1 = cat) ∧
    (i + (cat.length : ℤ) < 0 →
      (publish_ebay now cat sE i enet).2.2 = PubResult.indexError) ∧
    ((publish_etsy now cat sT i tnet).2.2 = PubResult.itemNotFound ↔
      (cat.length : ℤ) ≤ i) ∧
    ((cat.length : ℤ) ≤ i → (publish_etsy now cat sT i tnet).1 = cat) ∧
    (i + (cat.length : ℤ) < 0 →
      (publish_etsy now cat sT i tnet).2.2 = PubResult.indexError) := by
  refine ⟨⟨?_, ?_⟩, ?_, ?_, ⟨?_, ?_⟩, ?_, ?_⟩
  · intro hres
    by_contra hnle
    unfold publish_ebay publish_ebay_calls at hres
    repeat' split at hres
    all_goals simp_all
  · intro hle
    unfold publish_ebay
    rw [if_neg (by simp [he]), if_pos hle]
  · intro hle
    unfold publish_ebay
    rw [if_neg (by simp [he]), if_pos hle]
  · intro hlow
    have hpy : pyIndex cat.length i = none := by
      unfold pyIndex
      rw [if_neg (by omega), if_neg (by omega)]
    unfold publish_ebay
    rw [if_neg (by simp [he]), if_neg (by omega), hpy]
  · intro hres
    by_contra hnle
    unfold publish_etsy publish_etsy_calls at hres
    repeat' split at hres
    all_goals simp_all
  · intro hle
    unfold publish_etsy
    rw [if_neg (by simp [ht]), if_pos hle]
  · intro hle
    unfold publish_etsy
    rw [if_neg (by simp [ht]), if_pos hle]
  · intro hlow
    have hpy : pyIndex cat.length i = none := by
      unfold pyIndex
      rw [if_neg (by omega), if_neg (by omega)]
    unfold publish_etsy
    rw [if_neg (by simp [ht]), if_neg (by omega), hpy]

/-- C6 counterexample: item_id minus one is not the position of any
existing item of a one-item catalog, yet the publish does not signal
itemNotFound: Python indexing aliases the last item and the publish
succeeds; item_id minus two ends in an unhandled IndexError, also not
itemNotFound. -/
theorem C6_counterexample :
    ¬ (0 ≤ (-1 : ℤ)) ∧
    (publish_ebay 0 [item0] sEbayOk (-1) enetOk).2.2 ≠
      PubResult.itemNotFound ∧
    (publish_ebay 0 [item0] sEbayOk (-1) enetOk).2.2 = PubResult.ok ∧
    (publish_ebay 0 [item0] sEbayOk (-2) enetOk).2.2 ≠
      PubResult.itemNotFound ∧
    (publish_ebay 0 [item0] sEbayOk (-2) enetOk).2.2 =
      PubResult.indexError := by
  decide

/-- C6 amended witness: item_id two on a one-item catalog signals
itemNotFound and leaves the catalog unchanged. -/
theorem C6_item_lookup_amended_witness :
    (publish_ebay 0 [item0] sEbayOk 2 enetOk).2.2 = PubResult.itemNotFound ∧
    (publish_ebay 0 [item0] sEbayOk 2 enetOk).1 = [item0] :=
  ⟨(C6_item_lookup_amended 0 [item0] sEbayOk sEtsyOk 2 enetOk tnetOk
      (by decide) (by decide)).1.mpr (by decide),
    (C6_item_lookup_amended 0 [item0] sEbayOk sEtsyOk 2 enetOk tnetOk
      (by decide) (by decide)).2.1 (by decide)⟩

/-- Session of a fresh operator with no stored tokens. -/
def sEmpty : Session := {}

/-- Token response of a first successful authorization-code exchange. -/
def respA : TokenResponse :=
  { status := 200, access_token := some "atokA",
    refresh_token := some "rtokA", expires_in := some 3600 }

/-- Token response of a second successful authorization-code exchange. -/
def respB : TokenResponse :=
  { status := 200, access_token := some "atokB",
    refresh_token := some "rtokB", expires_in := some 3600 }

/-- Shop-lookup response of the first run: succeeds with SHOP1. -/
def shopA : ShopResponse :=
  { status := 200, shop_id := some "SHOP1", shop_name := some "Shop One" }

/-- Shop-lookup response of the second run: fails with a 500. -/
def shopB : ShopResponse := { status := 500, shop_id := none, shop_name := none }

/-- C7 counterexample: running the Etsy callback twice with fresh valid
codes, where the second shop lookup fails, completes ok but leaves the
shop identifier of the first session in place next to the second token
fields, so the stored session is not replaced wholesale. -/
theorem C7_counterexample :
    (callback_etsy 10 (callback_etsy 0 sEmpty respA shopA).1 respB shopB).2 =
      AuthResult.ok ∧
    (callback_etsy 10 (callback_etsy 0 sEmpty respA shopA).1 respB
        shopB).1.etsy_access_token = some "atokB" ∧
    (callback_etsy 10 (callback_etsy 0 sEmpty respA shopA).1 respB
        shopB).1.etsy_refresh_token = some "rtokB" ∧
    (callback_etsy 10 (callback_etsy 0 sEmpty respA shopA).1 respB
        shopB).1.etsy_shop_id = some "SHOP1" ∧
    shopB.shop_id ≠ some "SHOP1" ∧
    respB.status = 200 := by
  decide

/-- C7 amended: re-running a callback with a fresh valid code replaces
every token field wholesale from the new exchange, for both providers,
whatever the prior session; the Etsy shop identifier fields are also
replaced when the accompanying shop lookup succeeds, but are left over
from the prior session when it fails. -/
theorem C7_replacement_amended (now : ℤ) (s : Session) (resp : TokenResponse)
    (shop : ShopResponse) (a sid sname : String) (e : ℤ)
    (h200 : resp.status = 200) (hacc : resp.access_token = some a)
    (hexp : resp.expires_in = some e) (hs200 : shop.status = 200)
    (hsid : shop.shop_id = some sid) (hsname : shop.shop_name = some sname) :
    callback_ebay now s resp =
      ({ s with ebay_access_token := some a,
                ebay_refresh_token := resp.refresh_token,
                ebay_token_expiry := some (now + e) }, AuthResult.ok) ∧
    callback_etsy now s resp shop =
      ({ s with etsy_access_token := some a,
                etsy_refresh_token := resp.refresh_token,
                etsy_token_expiry := some (now + e),
                etsy_shop_id := some sid,
                etsy_shop_name := some sname }, AuthResult.ok) := by
  constructor
  · unfold callback_ebay
    rw [if_neg (by simp [h200])]
    simp only [hacc, hexp]
  · unfold callback_etsy
    rw [if_neg (by simp [h200])]
    simp only [hacc, hexp, hs200, hsid, hsname]
    simp

/-- C7 amended witness: a successful exchange and shop lookup on the
fresh session store exactly the fields of that exchange. -/
theorem C7_replacement_amended_witness :
    callback_ebay 0 sEmpty respA =
      ({ sEmpty with ebay_access_token := some "atokA",
                     ebay_refresh_token := respA.refresh_token,
                     ebay_token_expiry := some (0 + 3600) }, AuthResult.ok) ∧
    callback_etsy 0 sEmpty respA shopA =
      ({ sEmpty with etsy_access_token := some "atokA",
                     etsy_refresh_token := respA.refresh_token,
                     etsy_token_expiry := some (0 + 3600),
                     etsy_shop_id := some "SHOP1",
                     etsy_shop_name := some "Shop One" }, AuthResult.ok) :=
  C7_replacement_amended 0 sEmpty respA shopA "atokA" "SHOP1" "Shop One" 3600
    rfl rfl rfl rfl rfl rfl

/-- A successful eBay refresh stores the new access token and expiry and
rotates the refresh token exactly when the response carries one. -/
theorem refresh_ebay_ok_eq (now e : ℤ) (a : String) (s : Session)
    (resp : TokenResponse)
    (hrt : truthy s.ebay_refresh_token = true) (h200 : resp.status = 200)
    (hacc : resp.access_token = some a) (hexp : resp.expires_in = some e) :
    refresh_ebay_token now s resp =
      ((match resp.refresh_token with
        | some r => { s with ebay_access_token := some a,
                             ebay_token_expiry := some (now + e),
                             ebay_refresh_token := some r }
        | none => { s with ebay_access_token := some a,
                           ebay_token_expiry := some (now + e) }),
        RefreshResult.ok) := by
  unfold refresh_ebay_token
  rw [if_neg (by simp [hrt]), if_neg (by simp [h200])]
  simp only [hacc, hexp]
  cases resp.refresh_token <;> rfl

/-- A successful Etsy refresh stores the new access token and expiry and
rotates the refresh token exactly when the response carries one. -/
theorem refresh_etsy_ok_eq (now e : ℤ) (a : String) (s : Session)
    (resp : TokenResponse)
    (hrt : truthy s.etsy_refresh_token = true) (h200 : resp.status = 200)
    (hacc : resp.access_token = some a) (hexp : resp.expires_in = some e) :
    refresh_etsy_token now s resp =
      ((match resp.refresh_token with
        | some r => { s with etsy_access_token := some a,
                             etsy_token_expiry := some (now + e),
                             etsy_refresh_token := some r }
        | none => { s with etsy_access_token := some a,
                           etsy_token_expiry := some (now + e) }),
        RefreshResult.ok) := by
  unfold refresh_etsy_token
  rw [if_neg (by simp [hrt]), if_neg (by simp [h200])]
  simp only [hacc, hexp]
  cases resp.refresh_token <;> rfl

/-- C8: for both providers, an expired session holding a refresh token
the endpoint accepts is refreshed before the publish: the new access
token is stored, expires_at becomes now plus expires_in, which lies in
the future when expires_in is positive, the refresh token is rotated
exactly when the response carries a new one and kept otherwise, and the
publish then proceeds to a successful outcome without re-authorization. -/
theorem C8_token_refresh (now e : ℤ) (a : String) (cat : List Item)
    (s : Session) (resp : TokenResponse) (i : ℤ) (idx : ℕ) (item : Item)
    (enet : EbayNet) (tnet : EtsyNet)
    (hpos : 0 < e)
    (hreE : truthy s.ebay_refresh_token = true)
    (hreT : truthy s.etsy_refresh_token = true)
    (h200 : resp.status = 200) (hacc : resp.access_token = some a)
    (hexp : resp.expires_in = some e)
    (htokE : truthy s.ebay_access_token = true)
    (htokT : truthy s.etsy_access_token = true)
    (hshop : truthy s.etsy_shop_id = true)
    (hidx : pyIndex cat.length i = some idx)
    (hget : cat.get? idx = some item)
    (hexpE : (s.ebay_token_expiry).getD 0 < now)
    (hexpT : (s.etsy_token_expiry).getD 0 < now)
    (henet : enet.refresh = resp) (htnet : tnet.refresh = resp)
    (hinv : enet.invStatus = 200) (hoff : enet.offerStatus = 200)
    (hpub : enet.publishStatus = 200) (hlist : tnet.listingStatus = 201)
    (hfile : tnet.fileOk = true) :
    (refresh_ebay_token now s resp).2 = RefreshResult.ok ∧
    (refresh_ebay_token now s resp).1.ebay_access_token = some a ∧
    (refresh_ebay_token now s resp).1.ebay_token_expiry = some (now + e) ∧
    (resp.refresh_token = none →
      (refresh_ebay_token now s resp).1.ebay_refresh_token =
        s.ebay_refresh_token) ∧
    (∀ r, resp.refresh_token = some r →
      (refresh_ebay_token now s resp).1.ebay_refresh_token = some r) ∧
    (refresh_etsy_token now s resp).2 = RefreshResult.ok ∧
    (refresh_etsy_token now s resp).1.etsy_access_token = some a ∧
    (refresh_etsy_token now s resp).1.etsy_token_expiry = some (now + e) ∧
    (resp.refresh_token = none →
      (refresh_etsy_token now s resp).1.etsy_refresh_token =
        s.etsy_refresh_token) ∧
    (∀ r, resp.refresh_token = some r →
      (refresh_etsy_token now s resp).1.etsy_refresh_token = some r) ∧
    now < now + e ∧
    (publish_ebay now cat s i enet).2.2 = PubResult.ok ∧
    (publish_etsy now cat s i tnet).2.2 = PubResult.ok := by
  have hE := refresh_ebay_ok_eq now e a s resp hreE h200 hacc hexp
  have hT := refresh_etsy_ok_eq now e a s resp hreT h200 hacc hexp
  have h404 := pyIndex_not_le cat.length i idx hidx
  refine ⟨?_, ?_, ?_, ?_, ?_, ?_, ?_, ?_, ?_, ?_, by omega, ?_, ?_⟩
  · rw [hE]
  · rw [hE]
    cases resp.refresh_token <;> rfl
  · rw [hE]
    cases resp.refresh_token <;> rfl
  · intro h0
    rw [hE, h0]
  · intro r hr
    rw [hE, hr]
  · rw [hT]
  · rw [hT]
    cases resp.refresh_token <;> rfl
  · rw [hT]
    cases resp.refresh_token <;> rfl
  · intro h0
    rw [hT, h0]
  · intro r hr
    rw [hT, hr]
  · unfold publish_ebay
    rw [if_neg (by simp [htokE]), if_neg h404]
    simp only [hidx, hget]
    rw [if_pos hexpE, henet]
    simp only [hE]
    simp [publish_ebay_calls, hinv, hoff, hpub]
  · unfold publish_etsy
    rw [if_neg (by simp [htokT]), if_neg h404]
    simp only [hidx, hget]
    rw [if_neg (by simp [hshop]), if_pos hexpT, htnet]
    simp only [hT]
    simp [publish_etsy_calls, hlist, hfile]

/-- Session with expired tokens and refresh tokens for both providers. -/
def sStaleBoth : Session :=
  { ebay_access_token := some "stale", ebay_refresh_token := some "rtok",
    ebay_token_expiry := some 10, etsy_access_token := some "stale2",
    etsy_refresh_token := some "rtok2", etsy_token_expiry := some 10,
    etsy_shop_id := some "SHOP1" }

/-- Token response of a refresh endpoint accepting the request and
rotating the refresh token. -/
def respRefresh : TokenResponse :=
  { status := 200, access_token := some "fresh",
    refresh_token := some "rtokN", expires_in := some 3600 }

/-- eBay responses for a publish after a successful token refresh. -/
def enetRefresh : EbayNet :=
  { refresh := respRefresh, invStatus := 200, offerStatus := 200,
    publishStatus := 200, publishListingId := some "L1" }

/-- Etsy responses for a publish after a successful token refresh. -/
def tnetRefresh : EtsyNet :=
  { refresh := respRefresh, listingStatus := 201, listingId := some "E1",
    fileOk := true, imageStatus := 200 }

/-- C8 witness: on a concrete stale session the refresh succeeds, the
new expiry is in the future, and both publishes still end ok. -/
theorem C8_token_refresh_witness :
    (refresh_ebay_token 100 sStaleBoth respRefresh).2 = RefreshResult.ok ∧
    (refresh_ebay_token 100 sStaleBoth respRefresh).1.ebay_token_expiry =
      some (100 + 3600) ∧
    (100 : ℤ) < 100 + 3600 ∧
    (publish_ebay 100 [item0] sStaleBoth 0 enetRefresh).2.2 = PubResult.ok ∧
    (publish_etsy 100 [item0] sStaleBoth 0 tnetRefresh).2.2 = PubResult.ok := by
  have h := C8_token_refresh 100 3600 "fresh" [item0] sStaleBoth respRefresh
    0 0 item0 enetRefresh tnetRefresh (by decide) (by decide) (by decide)
    rfl rfl rfl (by decide) (by decide) (by decide) (by decide) (by decide)
    (by decide) (by decide) rfl rfl rfl rfl rfl rfl rfl
  exact ⟨h.1, h.2.2.1, h.2.2.2.2.2.2.2.2.2.2.1,
    h.2.2.2.2.2.2.2.2.2.2.2.1, h.2.2.2.2.2.2.2.2.2.2.2.2⟩

/-- C9: a failed Etsy shop lookup inside the callback is non-fatal: the
callback still ends ok with the token fields stored and usable, no shop
id is recorded, and a later Etsy publish on such a session fails with
shopNotConnected without touching the catalog. -/
theorem C9_shop_lookup_nonfatal (now now2 e : ℤ) (a : String) (s : Session)
    (resp : TokenResponse) (shop : ShopResponse) (cat : List Item) (i : ℤ)
    (idx : ℕ) (item : Item) (tnet : EtsyNet)
    (h200 : resp.status = 200) (hacc : resp.access_token = some a)
    (hexp : resp.expires_in = some e)
    (hshop : shop.status ≠ 200)
    (hnosid : s.etsy_shop_id = none)
    (ha : a ≠ "")
    (hidx : pyIndex cat.length i = some idx)
    (hget : cat.get? idx = some item) :
    (callback_etsy now s resp shop).2 = AuthResult.ok ∧
    (callback_etsy now s resp shop).1.etsy_access_token = some a ∧
    (callback_etsy now s resp shop).1.etsy_refresh_token =
      resp.refresh_token ∧
    (callback_etsy now s resp shop).1.etsy_token_expiry = some (now + e) ∧
    (callback_etsy now s resp shop).1.etsy_shop_id = none ∧
    publish_etsy now2 cat (callback_etsy now s resp shop).1 i tnet =
      (cat, (callback_etsy now s resp shop).1, PubResult.shopNotConnected) := by
  have h404 := pyIndex_not_le cat.length i idx hidx
  have hcb : callback_etsy now s resp shop =
      ({ s with etsy_access_token := some a,
                etsy_refresh_token := resp.refresh_token,
                etsy_token_expiry := some (now + e) }, AuthResult.ok) := by
    unfold callback_etsy
    rw [if_neg (by simp [h200])]
    simp only [hacc, hexp]
    rw [if_neg hshop]
  refine ⟨by rw [hcb], by rw [hcb], by rw [hcb], by rw [hcb],
    ?_, ?_⟩
  · rw [hcb]
    exact hnosid
  · rw [hcb]
    unfold publish_etsy
    rw [if_neg (by simp [truthy, ha]), if_neg h404]
    simp only [hidx, hget]
    rw [if_pos (by simp [truthy, hnosid])]

/-- C9 witness: the first Etsy callback of a fresh operator with a
failing shop lookup stores the tokens, records no shop id, and a
subsequent publish fails with shopNotConnected leaving the catalog
unchanged. -/
theorem C9_shop_lookup_nonfatal_witness :
    (callback_etsy 0 sEmpty respA shopB).2 = AuthResult.ok ∧
    (callback_etsy 0 sEmpty respA shopB).1.etsy_shop_id = none ∧
    publish_etsy 50 [item0] (callback_etsy 0 sEmpty respA shopB).1 0 tnetOk =
      ([item0], (callback_etsy 0 sEmpty respA shopB).1,
        PubResult.shopNotConnected) := by
  have h := C9_shop_lookup_nonfatal 0 50 3600 "atokA" sEmpty respA shopB
    [item0] 0 0 item0 tnetOk rfl rfl rfl (by decide) rfl (by decide)
    (by decide) rfl
  exact ⟨h.1, h.2.2.2.2.1, h.2.2.2.2.2⟩

/-- C2 amended witness: on a concrete catalog, a failing eBay inventory
step, offer step, final publish step, or token refresh, and a failing
Etsy listing step or token refresh, each make the publish abort without
touching the catalog. -/
theorem C2_abort_amended_witness :
    ((publish_ebay 0 [item0] sEbayOk 0 enetInvFail).1 = [item0] ∧
      (publish_ebay 0 [item0] sEbayOk 0 enetInvFail).2.2 ≠ PubResult.ok) ∧
    ((publish_ebay 0 [item0] sEbayOk 0 enetOfferFail).1 = [item0] ∧
      (publish_ebay 0 [item0] sEbayOk 0 enetOfferFail).2.2 ≠ PubResult.ok) ∧
    ((publish_ebay 0 [item0] sEbayOk 0 enetPubFail).1 = [item0] ∧
      (publish_ebay 0 [item0] sEbayOk 0 enetPubFail).2.2 ≠ PubResult.ok) ∧
    ((publish_ebay 100 [item0] sStaleBoth 0 enetOk).1 = [item0] ∧
      (publish_ebay 100 [item0] sStaleBoth 0 enetOk).2.2 ≠ PubResult.ok) ∧
    ((publish_etsy 0 [item0] sEtsyOk 0 tnetListFail).1 = [item0] ∧
      (publish_etsy 0 [item0] sEtsyOk 0 tnetListFail).2.2 ≠ PubResult.ok) ∧
    ((publish_etsy 100 [item0] sStaleBoth 0 tnetOk).1 = [item0] ∧
      (publish_etsy 100 [item0] sStaleBoth 0 tnetOk).2.2 ≠ PubResult.ok) :=
  ⟨(C2_abort_amended 0 [item0] sEbayOk sEtsyOk 0 enetInvFail
      tnetListFail).2.1 (by decide),
    (C2_abort_amended 0 [item0] sEbayOk sEtsyOk 0 enetOfferFail
      tnetListFail).2.2.1 (by decide),
    (C2_abort_amended 0 [item0] sEbayOk sEtsyOk 0 enetPubFail
      tnetListFail).2.2.2.1 (by decide),
    (C2_abort_amended 100 [item0] sStaleBoth sStaleBoth 0 enetOk
      tnetOk).2.2.2.2.1 (by decide) (by decide) (by decide),
    (C2_abort_amended 0 [item0] sEbayOk sEtsyOk 0 enetOfferFail
      tnetListFail).2.2.2.2.2.2.1 (by decide),
    (C2_abort_amended 100 [item0] sStaleBoth sStaleBoth 0 enetOk
      tnetOk).2.2.2.2.2.2.2 (by decide) (by decide) (by decide)⟩

end AutoDropShip
